import Mathlib

/-!
Verification development for the multi-provider market-data aggregation
service (aggregator, IG Index adapter, FRED macro adapter, cache service).
Python floats are modelled as exact rationals, Python strings as lists of
characters, and network / database effects as explicit oracles passed in.
Each definition is a shallow embedding of the correspondingly named Python
function, with file/line references given in the doc comments.
-/

/-- Python strings are modelled as lists of characters. -/
abbrev PyStr : Type := List Char

/-- Python `s.startswith(t)`: `t` is an initial segment of `s`. -/
def pyStartsWith : PyStr → PyStr → Bool
  | _, [] => true
  | [], _ :: _ => false
  | a :: as, b :: bs => a == b && pyStartsWith as bs

/-- Python `needle in hay` (substring containment). -/
def pyIn (needle : PyStr) : PyStr → Bool
  | [] => needle.isEmpty
  | a :: t => pyStartsWith (a :: t) needle || pyIn needle t

/-- Python `s.endswith(t)`. -/
def pyEndsWith (s t : PyStr) : Bool :=
  pyStartsWith s.reverse t.reverse

/-- Python `s.upper()` (ASCII). -/
def pyUpper (s : PyStr) : PyStr := s.map Char.toUpper

/-- Python `s.lower()` (ASCII). -/
def pyLower (s : PyStr) : PyStr := s.map Char.toLower

/-- Python lexicographic string comparison `s < t` (by code point). -/
def pyStrLt : PyStr → PyStr → Bool
  | [], [] => false
  | [], _ :: _ => true
  | _ :: _, [] => false
  | a :: as, b :: bs => decide (a < b) || (a == b && pyStrLt as bs)

/-- The asset-class enum from `app/models.py` lines 6-11. -/
inductive AssetType where
  | equity
  | commodity
  | forex
  | index
  | crypto
deriving DecidableEq

/-- The canonical price record from `app/models.py` lines 13-22.
The UTC timestamp is omitted (real time is outside the embedding);
floats are modelled as exact rationals. -/
structure PriceData where
  symbol : PyStr
  asset_type : AssetType
  price : ℚ
  change_percent : ℚ
  change_absolute : ℚ
  volume : Option ℚ := none
  market_cap : Option ℚ := none
  source : PyStr
deriving DecidableEq

/-- Crypto substrings checked first by the classifier
(`services/aggregator.py` line 567). -/
def crypto_symbols : List PyStr :=
  ["BTC", "ETH", "SOL", "AVAX", "DOT", "ADA", "XRP", "DOGE", "MATIC",
   "LINK", "WAI"].map String.toList

/-- Currency codes used by the forex heuristic (`services/aggregator.py` line 572). -/
def forex_pairs : List PyStr :=
  ["USD", "EUR", "GBP", "JPY", "CHF", "CAD", "AUD", "NZD"].map String.toList

/-- Index substrings (`services/aggregator.py` line 577). -/
def index_symbols : List PyStr :=
  ["SPX", "SPY", "QQQ", "DJI", "VIX", "NASDAQ", "FTSE", "DAX", "CAC",
   "NIKKEI"].map String.toList

/-- Commodity substrings (`services/aggregator.py` line 582). -/
def commodity_symbols : List PyStr :=
  ["GOLD", "SILVER", "OIL", "WTI", "BRENT", "GAS", "WHEAT",
   "CORN"].map String.toList

/-- The cleaned symbol used by the classifier: uppercase with `$` removed
(`services/aggregator.py` line 564). -/
def symbol_upper_of (symbol : PyStr) : PyStr :=
  (pyUpper symbol).filter (fun c => c ≠ '$')

/-- `DataAggregator._detect_asset_type` (`services/aggregator.py` lines 562-587):
rule order is crypto substrings, then length-≥-6 + currency-code, then index
substrings, then commodity substrings, else equity. -/
def detect_asset_type (symbol : PyStr) : AssetType :=
  let symbol_upper := symbol_upper_of symbol
  if crypto_symbols.any (fun c => pyIn c symbol_upper) then .crypto
  else if decide (6 ≤ symbol_upper.length)
          && forex_pairs.any (fun c => pyIn c symbol_upper) then .forex
  else if index_symbols.any (fun c => pyIn c symbol_upper) then .index
  else if commodity_symbols.any (fun c => pyIn c symbol_upper) then .commodity
  else .equity

/-- The equity instrument-code leading strings of
`IGIndexProvider._normalize_price` (`services/data_providers/ig_index.py`
line 277). -/
def equity_code_starts : List PyStr :=
  ["UA.D.", "UB.D.", "UC.D.", "UD.D.", "UE.D.", "UF.D.", "UG.D.", "UH.D.",
   "UI.D.", "UJ.D.", "SH.D.", "SA.D.", "SB.D.", "SC.D.", "SD.D.", "SE.D.",
   "SF.D.", "SG.D.", "SI.D"].map String.toList

/-- The condition of `_normalize_price`: the epic starts with one of the
equity code strings and ends in `.DAILY.IP`. -/
def is_equity_daily_epic (epic : PyStr) : Bool :=
  equity_code_starts.any (fun p => pyStartsWith epic p)
    && pyEndsWith epic (".DAILY.IP".toList)

/-- `IGIndexProvider._normalize_price` (`services/data_providers/ig_index.py`
lines 275-279): prices of equity-coded `.DAILY.IP` epics are divided by 100;
every other epic is returned unchanged. -/
def normalize_price (price : ℚ) (epic : PyStr) : ℚ :=
  if is_equity_daily_epic epic then price / 100 else price

/-- Python runtime values needed by the embedding: `None`, a coroutine
object (the result of calling an `async def` function without `await`),
and the formatted macro-series dict built by `FredService`. -/
inductive PyVal where
  | pynone
  | coroutine
  | mdict (d : List (PyStr × ℚ))
deriving DecidableEq

/-- Python truthiness for the values above: `None` is falsy; a coroutine
object is always truthy; the macro dict is truthy iff non-empty. -/
def pyTruthy : PyVal → Bool
  | .pynone => false
  | .coroutine => true
  | .mdict d => !d.isEmpty

/-- Python `isinstance(v, dict)` for the values above. -/
def pyIsDict : PyVal → Bool
  | .mdict _ => true
  | _ => false

/-- Python exception classes appearing in the embedding. -/
inductive PyErr where
  | nameError
  | typeError
  | valueError
deriving DecidableEq

/-- Calling a Python function with keyword arguments succeeds only when
every keyword names a declared parameter (no `**kwargs` is declared by any
function modelled here). -/
def pyKwargsOk (params kwargs : List PyStr) : Bool :=
  kwargs.all (fun k => decide (k ∈ params))

/-- Parameter list of `IGIndexProvider.get_price`
(`services/data_providers/ig_index.py` line 281): `(self, ticker)`. -/
def ig_get_price_params : List PyStr := ["self", "ticker"].map String.toList

/-- Parameter list of `IGIndexProvider.initialize`
(`services/data_providers/ig_index.py` line 31): `(self)`. -/
def ig_initialize_params : List PyStr := ["self"].map String.toList

/-- Local names bound in the body of `IGIndexProvider.get_price` before its
first statement runs: the two parameters. -/
def ig_get_price_local_names : List PyStr := ["self", "ticker"].map String.toList

/-- Module-level names of `services/data_providers/ig_index.py` (imports at
lines 6-18, `logger` at line 20, the class at line 22). -/
def ig_index_module_names : List PyStr :=
  ["IGService", "config", "asyncio", "psycopg2", "os", "pd", "Optional",
   "List", "Dict", "Any", "datetime", "PriceData", "AssetType", "settings",
   "HTTPError", "ConnectionError", "logging", "logger",
   "IGIndexProvider"].map String.toList

/-- A sample of Python builtin names (the full builtin namespace contains no
name `ensure_session` either). -/
def py_builtin_names : List PyStr :=
  ["float", "len", "all", "any", "hasattr", "str", "isinstance", "print",
   "dict", "list", "set", "sorted", "range", "enumerate", "Exception",
   "ValueError", "TypeError", "NameError", "AttributeError"].map String.toList

/-- Whether a bare name inside `IGIndexProvider.get_price` resolves
(local scope, then module globals, then builtins). -/
def igNameBound (n : PyStr) : Bool :=
  decide (n ∈ ig_get_price_local_names) || decide (n ∈ ig_index_module_names)
    || decide (n ∈ py_builtin_names)

/-- The name read by line 285 of `services/data_providers/ig_index.py`. -/
def ensure_session_name : PyStr := "ensure_session".toList

/-- One market row of the search results returned by the IG API
(`search_markets`, `services/data_providers/ig_index.py` lines 131-160). -/
structure Market where
  epic : PyStr
  instrumentName : PyStr
  marketStatus : PyStr
  streamingPricesAvailable : Bool
deriving DecidableEq

/-- Metadata for an epic as produced by `_get_market_metadata`
(`services/data_providers/ig_index.py` lines 214-242): `clean_name` is
present only when the instrument had a name; `instr_type` is the
instrument `type` field. -/
structure Metadata where
  clean_name : Option PyStr
  instr_type : PyStr
deriving DecidableEq

/-- A symbol row from the `stock_universe` directory table
(`_lookup_symbol_in_db`, `services/data_providers/ig_index.py` lines 89-108). -/
structure SymbolRow where
  epic : PyStr
  asset_type : PyStr
deriving DecidableEq

/-- The `snapshot` part of `fetch_market_by_epic`
(`services/data_providers/ig_index.py` lines 305-327). -/
structure Snapshot where
  bid : Option ℚ
  offer : Option ℚ
  percentageChange : Option ℚ
  netChange : Option ℚ
deriving DecidableEq

/-- Oracle for the IG adapter's external effects: session state, the
directory database, the IG search / metadata / market endpoints, and
whether the directory upsert would succeed if it were executed. -/
structure IGEnv where
  authenticated : Bool
  dbLookup : PyStr → Option SymbolRow
  search : PyStr → List Market
  metadata : PyStr → Option Metadata
  saveOk : PyStr → PyStr → Bool
  fetchMarket : PyStr → Option Snapshot

/-- `IGIndexProvider._infer_asset_type`
(`services/data_providers/ig_index.py` lines 262-273). -/
def infer_asset_type (ticker epic : PyStr) (metadata : Option Metadata) : PyStr :=
  let ticker := pyUpper ticker
  if pyStartsWith ticker ("^".toList)
      || decide (ticker ∈ (["SPY", "QQQ", "DIA", "IWM", "VIX"].map String.toList))
      || pyStartsWith epic ("IX.".toList) then "index".toList
  else if (pyIn ("USD".toList) ticker && decide (ticker.length = 6))
      || pyEndsWith ticker ("=X".toList)
      || pyStartsWith epic ("CS.D.".toList) then "forex".toList
  else if decide (ticker ∈ (["GOLD", "SILVER", "OIL", "BRENT", "NATGAS",
        "COPPER"].map String.toList))
      || pyEndsWith ticker ("=F".toList)
      || pyStartsWith epic ("CC.D.".toList)
      || pyStartsWith epic ("MT.D.".toList) then "commodity".toList
  else if decide (ticker ∈ (["BTC", "ETH"].map String.toList))
      || (match metadata with
          | some md => pyIn ("CRYPTO".toList) md.instr_type
          | none => pyIn ("CRYPTO".toList) []) then "crypto".toList
  else "stock".toList

/-- The result dict of a successful discovery
(`_discover_and_enhance_symbol`, lines 208-210). -/
structure DiscoveredSymbol where
  symbol : PyStr
  epic : PyStr
  display_name : PyStr
  asset_type : PyStr
deriving DecidableEq

/-- Candidate filter of the discovery workflow
(`services/data_providers/ig_index.py` lines 176-179): market status
`TRADEABLE` and streaming prices available. -/
def tradeable_candidates (results : List Market) : List Market :=
  results.filter (fun m =>
    m.marketStatus = ("TRADEABLE".toList) && m.streamingPricesAvailable)

/-- Best-match selection (`services/data_providers/ig_index.py` lines
185-192): a single candidate is taken directly; otherwise an exact
(case-insensitive) instrument-name match is preferred, else the first. -/
def select_best_match (candidates : List Market) (search_term : PyStr) :
    Option Market :=
  match candidates with
  | [] => none
  | [m] => some m
  | m :: _ =>
    let exact := candidates.filter
      (fun c => pyLower c.instrumentName = pyLower search_term)
    some (exact.headD m)

/-- Calling an `async def` Python function without `await` yields a
coroutine object no matter what the function would eventually return. -/
def pyCallAsyncUnawaited (_wouldReturn : Bool) : PyVal := .coroutine

/-- `IGIndexProvider._discover_and_enhance_symbol`
(`services/data_providers/ig_index.py` lines 162-212). Line 207 tests
`if self._save_discovered_symbol(...)` WITHOUT `await`: the condition is
the truthiness of the coroutine object, so the branch is taken regardless
of whether the directory upsert would succeed (and the upsert itself is
never executed). -/
def discover_and_enhance_symbol (env : IGEnv) (ticker : PyStr) :
    Option DiscoveredSymbol :=
  let search_term := pyUpper ticker
  let search_results := env.search search_term
  if search_results.isEmpty then none
  else
    match select_best_match (tradeable_candidates search_results) search_term with
    | none => none
    | some best =>
      let epic := best.epic
      let dn_at : PyStr × PyStr :=
        match env.metadata epic with
        | some md => (md.clean_name.getD ticker,
                      infer_asset_type ticker epic (some md))
        | none => (ticker, "stock".toList)
      if pyTruthy (pyCallAsyncUnawaited (env.saveOk (pyUpper ticker) epic)) then
        some { symbol := ticker, epic := epic, display_name := dn_at.1,
               asset_type := dn_at.2 }
      else none

/-- Raw-price extraction from a snapshot
(`services/data_providers/ig_index.py` lines 315-319): bid preferred,
else offer, else `0.0`. -/
def raw_price_of (snap : Snapshot) : ℚ :=
  match snap.bid with
  | some b => b
  | none =>
    match snap.offer with
    | some o => o
    | none => 0

/-- Python `AssetType[s.upper()] if hasattr(AssetType, s.upper()) else
AssetType.EQUITY` (`services/data_providers/ig_index.py` line 330). -/
def asset_type_of_str (s : PyStr) : AssetType :=
  let u := pyUpper s
  if u = ("CRYPTO".toList) then .crypto
  else if u = ("FOREX".toList) then .forex
  else if u = ("INDEX".toList) then .index
  else if u = ("COMMODITY".toList) then .commodity
  else .equity

/-- Record construction of `IGIndexProvider.get_price`
(`services/data_providers/ig_index.py` lines 305-336): zero raw price is
"no data"; the price is normalized but `netChange` and `percentageChange`
are taken from the snapshot unscaled. -/
def ig_build_price (ticker epic asset_type_str : PyStr) (snap : Snapshot) :
    Option PriceData :=
  let raw_price := raw_price_of snap
  if raw_price = 0 then none
  else
    some { symbol := ticker
           asset_type := asset_type_of_str asset_type_str
           price := normalize_price raw_price epic
           change_percent := snap.percentageChange.getD 0
           change_absolute := snap.netChange.getD 0
           volume := none
           source := "ig_index".toList }

/-- The part of `IGIndexProvider.get_price` after the session check
(`services/data_providers/ig_index.py` lines 288-336): directory lookup,
discovery on a miss, market fetch, record construction. -/
def ig_get_price_after_session (env : IGEnv) (ticker : PyStr) :
    Option PriceData :=
  if !env.authenticated then none
  else
    let symbol_data : Option SymbolRow :=
      match env.dbLookup ticker with
      | some row => some row
      | none =>
        (discover_and_enhance_symbol env ticker).map
          (fun d => { epic := d.epic, asset_type := d.asset_type })
    match symbol_data with
    | none => none
    | some row =>
      if row.epic.isEmpty then none
      else
        match env.fetchMarket row.epic with
        | none => none
        | some snap => ig_build_price ticker row.epic row.asset_type snap

/-- `IGIndexProvider.get_price` (`services/data_providers/ig_index.py`
lines 281-340). Its first statement (line 285) evaluates the bare name
`ensure_session`, which is bound neither locally, nor at module level,
nor as a builtin; the resulting `NameError` is caught by the blanket
`except Exception` (line 338), which returns `None`. -/
def ig_get_price (env : IGEnv) (ticker : PyStr) : Option PriceData :=
  if igNameBound ensure_session_name then ig_get_price_after_session env ticker
  else none

/-- The five providers held by the aggregator
(`services/aggregator.py` lines 25-31). -/
inductive Provider where
  | binance
  | mexc
  | ig_index
  | finnhub
  | fred
deriving DecidableEq

/-- The per-asset-class provider priority table
(`services/aggregator.py` lines 44-50); every asset class has an entry, so
the Python `.get(asset_type, ['ig_index'])` default is never taken. -/
def provider_priority : AssetType → List Provider
  | .crypto => [.binance, .mexc]
  | .forex => [.ig_index]
  | .equity => [.ig_index]
  | .index => [.ig_index]
  | .commodity => [.ig_index]

/-- The fallback list of price providers
(`services/aggregator.py` line 557). -/
def price_fallback_list : List Provider := [.binance, .mexc, .ig_index]

/-- Outcome of one provider `get_price` call as seen by the aggregator:
a timeout, a raised exception, or a returned optional record
(`services/aggregator.py` lines 272-299). -/
inductive FetchOutcome where
  | timeout
  | raised
  | returned (r : Option PriceData)

/-- Aggregator state: the readiness map (`services/aggregator.py` lines
35-41, mutated by initialization and health checks), an oracle for each
provider call's outcome, and whether the forced fresh IG session of the
bulk path would authenticate. -/
structure AggState where
  ready : Provider → Bool
  fetch : Provider → PyStr → FetchOutcome
  igAuthenticated : Bool

/-- `DataAggregator._get_providers_for_symbol`
(`services/aggregator.py` lines 548-560): the class priority list filtered
to ready providers, falling back to any ready price provider. -/
def get_providers_for_symbol (st : AggState) (asset_type : AssetType) :
    List Provider :=
  let available := (provider_priority asset_type).filter st.ready
  if available.isEmpty then price_fallback_list.filter st.ready else available

/-- The provider loop of `DataAggregator.get_price`
(`services/aggregator.py` lines 267-299): skip not-ready providers, treat
timeouts and exceptions as "no data", and return the first record with a
strictly positive price. -/
def try_providers (st : AggState) (symbol : PyStr) :
    List Provider → Option PriceData
  | [] => none
  | p :: rest =>
    if !st.ready p then try_providers st symbol rest
    else
      match st.fetch p symbol with
      | .timeout => try_providers st symbol rest
      | .raised => try_providers st symbol rest
      | .returned none => try_providers st symbol rest
      | .returned (some r) =>
        if 0 < r.price then some r else try_providers st symbol rest

/-- `DataAggregator.get_price` (`services/aggregator.py` lines 257-303):
classify, build the provider list, try the providers in order, return
`None` when all fail.  No cache is consulted anywhere on this path. -/
def agg_get_price (st : AggState) (symbol : PyStr) : Option PriceData :=
  try_providers st symbol (get_providers_for_symbol st (detect_asset_type symbol))

/-- State of the Redis-backed `CacheService`
(`services/cache_service.py` lines 11-53): whether a connection exists and
the stored records (insertion/expiry bookkeeping is Redis-internal). -/
structure CacheState where
  redisConnected : Bool
  store : PyStr → Option PriceData

/-- `CacheService.get` (`services/cache_service.py` lines 29-42), as the
value an awaited call would produce. -/
def cache_get (c : CacheState) (key : PyStr) : Option PriceData :=
  if c.redisConnected then c.store key else none

/-- The price route (`app/routers/prices.py` line 42) invokes
`aggregator.get_price(symbol)` directly; neither the route nor the
aggregator touches the cache, so the system-level price lookup ignores
the cache state entirely. -/
def sys_get_price (st : AggState) (_cache : CacheState) (symbol : PyStr) :
    Option PriceData :=
  agg_get_price st symbol

/-- The usable outcome of one provider call: the record, when the call
returned one with a strictly positive price. -/
def provider_usable_result (st : AggState) (p : Provider) (symbol : PyStr) :
    Option PriceData :=
  match st.fetch p symbol with
  | .returned (some r) => if 0 < r.price then some r else none
  | _ => none

/-- Python `sorted(list(set(symbols)))` (`services/aggregator.py` line 335):
the distinct symbols in ascending lexicographic order. -/
def unique_symbols_of (symbols : List PyStr) : List PyStr :=
  List.insertionSort (fun a b => pyStrLt a b = true) symbols.dedup

/-- Whether a symbol's provider list starts with the IG provider
(`services/aggregator.py` lines 338-343). -/
def ig_routed (st : AggState) (s : PyStr) : Bool :=
  match get_providers_for_symbol st (detect_asset_type s) with
  | [] => false
  | p :: _ => p = Provider.ig_index

/-- The bulk response shape (`services/aggregator.py` lines 392-396),
without the wall-clock timestamp. -/
structure BulkResult where
  data : List PriceData
  failed_symbols : List PyStr
deriving DecidableEq

/-- The `price_map` dict built at `services/aggregator.py` line 384
(`{p.symbol: p for p in all_prices}`): a later record overwrites an
earlier one with the same symbol. -/
def last_with_symbol (all_prices : List PriceData) (s : PyStr) :
    Option PriceData :=
  (all_prices.filter (fun p => p.symbol = s)).getLast?

/-- Compilation of the final bulk response
(`services/aggregator.py` lines 384-396): data holds, in `unique_symbols`
order, the mapped record of each successful symbol; the remaining
symbols are listed as failed. -/
def compile_bulk (unique_symbols : List PyStr) (all_prices : List PriceData) :
    BulkResult :=
  { data := unique_symbols.filterMap (last_with_symbol all_prices)
    failed_symbols :=
      unique_symbols.filter (fun s => (last_with_symbol all_prices s).isNone) }

/-- The keyword used at `services/aggregator.py` line 366. -/
def force_reconnect_name : PyStr := "force_reconnect".toList

/-- `DataAggregator.get_bulk_prices` (`services/aggregator.py` lines
329-396).  Symbols are deduplicated and sorted, partitioned by whether
their primary provider is IG; non-IG symbols are fetched concurrently via
`get_price`; for a non-empty IG group, line 366 calls
`ig_provider.initialize(force_reconnect=True)` against the zero-argument
signature of `IGIndexProvider.initialize` (ig_index.py line 31), raising a
`TypeError` that the surrounding `except asyncio.TimeoutError` (line 380)
does not catch, so it propagates out of the whole call. -/
def agg_get_bulk_prices (st : AggState) (symbols : List PyStr) :
    Except PyErr BulkResult :=
  let unique_symbols := unique_symbols_of symbols
  let ig_symbols := unique_symbols.filter (ig_routed st)
  let other_symbols := unique_symbols.filter (fun s => !ig_routed st s)
  let prices_other := other_symbols.filterMap (agg_get_price st)
  if ig_symbols.isEmpty then .ok (compile_bulk unique_symbols prices_other)
  else if pyKwargsOk ig_initialize_params [force_reconnect_name] then
    -- unreachable: `initialize` accepts no keyword argument
    let prices_ig :=
      if st.igAuthenticated then ig_symbols.filterMap (agg_get_price st) else []
    .ok (compile_bulk unique_symbols (prices_other ++ prices_ig))
  else .error .typeError

/-- One FRED observation (`services/data_providers/fred_service.py` lines
63-87): `value = none` encodes the `"."` placeholder that line 67 filters
out; other values are the parsed floats. -/
structure FredObs where
  date : PyStr
  value : Option ℚ
deriving DecidableEq

/-- Oracle for the FRED HTTP endpoint: the observation list a request for
a series would yield (`none` = request error or missing `observations`). -/
structure FredEnv where
  observations : PyStr → Option (List FredObs)

/-- Python `round(x, 2)` on exact rationals: round-half-to-even at two
decimal places. -/
def pyRound2 (q : ℚ) : ℚ :=
  let x := q * 100
  let f := ⌊x⌋
  let frac := x - f
  let n : ℤ :=
    if frac < 1 / 2 then f
    else if 1 / 2 < frac then f + 1
    else if f % 2 = 0 then f else f + 1
  (n : ℚ) / 100

/-- The live-fetch branch of `FredService.get_series_data`
(`services/data_providers/fred_service.py` lines 28-100): filter the `"."`
observations, require at least two, take latest/previous/year-ago from the
head for ordinary series and from the tail for the ascending-only `PMI`
series, and build the formatted dict.  (This branch is unreachable from
`get_series_data`, see below; it is embedded for completeness.  The dict
is represented by its numeric fields.) -/
def fred_live_fetch (env : FredEnv) (series_id : PyStr) : PyVal :=
  match env.observations series_id with
  | none => .pynone
  | some raw =>
    let observations := raw.filter (fun o => o.value.isSome)
    if observations.length < 2 then .pynone
    else
      let is_pmi := series_id = ("PMI".toList)
      let idx_latest := if is_pmi then observations.length - 1 else 0
      let idx_prev := if is_pmi then observations.length - 2 else 1
      let year_ago :=
        if 12 < observations.length then
          if is_pmi then observations.get? (observations.length - 13)
          else observations.get? 12
        else none
      match observations.get? idx_latest, observations.get? idx_prev with
      | some latest, some previous =>
        let latest_value := latest.value.getD 0
        let previous_value := previous.value.getD 0
        let base : List (PyStr × ℚ) :=
          [("latest_value".toList, latest_value),
           ("change_from_previous".toList,
             pyRound2 (latest_value - previous_value)),
           ("percent_change_from_previous".toList,
             if previous_value ≠ 0 then
               pyRound2 ((latest_value - previous_value) / previous_value * 100)
             else 0)]
        let extra : List (PyStr × ℚ) :=
          match year_ago with
          | some ya =>
            let year_ago_value := ya.value.getD 0
            if year_ago_value ≠ 0 then
              [("percent_change_year_ago".toList,
                pyRound2 ((latest_value - year_ago_value) / year_ago_value * 100))]
            else []
          | none => []
        .mdict (base ++ extra)
      | _, _ => .pynone

/-- `FredService.get_series_data` (`services/data_providers/fred_service.py`
lines 21-27).  Line 23 assigns `cached_data = self.cache.get(cache_key)`;
`CacheService.get` is an `async def` (cache_service.py line 29) and the
call is NOT awaited, so `cached_data` is a coroutine object — always
truthy — and line 24's cache-hit branch returns it unconditionally. -/
def fred_get_series_data (env : FredEnv) (series_id : PyStr) : PyVal :=
  let cached_data : PyVal := pyCallAsyncUnawaited true
  if pyTruthy cached_data then cached_data
  else fred_live_fetch env series_id

/-- Truthiness of `result.get('latest_value')` in the macro test
(`services/aggregator.py` line 124): only a dict with a truthy (non-zero)
`latest_value` entry passes. -/
def latest_value_truthy : PyVal → Bool
  | .mdict d =>
    match (d.filter (fun kv => kv.1 = ("latest_value".toList))).getLast? with
    | some kv => kv.2 ≠ 0
    | none => false
  | _ => false

/-- `DataAggregator._test_macro_provider` (`services/aggregator.py` lines
118-132): `result and isinstance(result, dict) and
result.get('latest_value')`. -/
def test_macro_provider (env : FredEnv) : Bool :=
  let result := fred_get_series_data env ("GDP".toList)
  pyTruthy result && pyIsDict result && latest_value_truthy result

/-- Readiness of `fred` after `DataAggregator._initialize_provider`
(`services/aggregator.py` lines 89-116): `FredService` has neither an
`initialize` nor a `health_check` attribute, so both `hasattr` guards are
skipped and readiness equals the functional macro test's result. -/
def init_fred_ready (env : FredEnv) : Bool :=
  test_macro_provider env

/-- Which providers define a `health_check` method (binance.py line 105,
mexc.py line 116, ig_index.py line 366, finnhub.py line 91; `FredService`
defines none). -/
def has_health_check : Provider → Bool
  | .fred => false
  | _ => true

/-- Per-provider health outcome inside `DataAggregator.health_check`
(`services/aggregator.py` lines 200-226): a provider without a
`health_check` method is assumed healthy (line 206); exceptions count as
unhealthy (`_check_provider_health`, lines 242-252). -/
def provider_health_result (probe : Provider → Except Unit Bool)
    (p : Provider) : Bool :=
  if has_health_check p then
    match probe p with
    | .ok b => b
    | .error _ => false
  else true

/-- The readiness update at the end of `DataAggregator.health_check`
(`services/aggregator.py` lines 231-238): unhealthy-and-ready flips off,
healthy-and-not-ready flips on, otherwise unchanged. -/
def health_update_ready (ready healthy : Provider → Bool) :
    Provider → Bool :=
  fun p =>
    if !healthy p && ready p then false
    else if healthy p && !ready p then true
    else ready p

/-- Field names declared by `Settings` (`config/settings.py` lines 6-32);
there is no `fred_api_key` and no `macro_cache_ttl` field, and
`extra = "ignore"` drops undeclared environment values. -/
def settings_field_names : List PyStr :=
  ["host", "port", "workers", "log_level", "redis_url", "ig_username",
   "ig_password", "ig_api_key", "ig_acc_type", "finnhub_api_key",
   "tg_bot_token", "tg_chat_id", "telegram_enabled", "crypto_cache_ttl",
   "traditional_cache_ttl", "news_cache_ttl"].map String.toList

/-- Python falsiness of an optional string credential: unset or empty. -/
def credential_falsy : Option PyStr → Bool
  | none => true
  | some s => s.isEmpty

/-- State of a constructed `FredService`
(`services/data_providers/fred_service.py` lines 13-18). -/
structure FredServiceState where
  api_key : PyStr
deriving DecidableEq

/-- `FredService.__init__` (`services/data_providers/fred_service.py`
lines 13-18): `if not api_key: raise ValueError(...)`. -/
def fred_service_mk (api_key : Option PyStr) :
    Except PyErr FredServiceState :=
  match api_key with
  | none => .error .valueError
  | some k => if k.isEmpty then .error .valueError else .ok { api_key := k }

/-- State of a constructed `DataAggregator`
(`services/aggregator.py` lines 23-62): the FRED provider state and the
all-false initial readiness map.  The Binance, MEXC, IG and Finnhub
constructors only assign fields and never raise (binance.py lines 13-29,
mexc.py lines 18-27, ig_index.py lines 25-29, finnhub.py lines 53-62). -/
structure DataAggregatorState where
  fred : FredServiceState
  ready : Provider → Bool

/-- `DataAggregator.__init__` (`services/aggregator.py` lines 23-31):
`FredService()` is constructed inside the providers dict with no
exception handling, so a `ValueError` from a missing FRED key propagates
out of the aggregator's constructor. -/
def data_aggregator_mk (fred_api_key : Option PyStr) :
    Except PyErr DataAggregatorState :=
  match fred_service_mk fred_api_key with
  | .error e => .error e
  | .ok f => .ok { fred := f, ready := fun _ => false }

/-- Boolean success test for an `Except` value. -/
def except_is_ok {ε α : Type} : Except ε α → Bool
  | .ok _ => true
  | .error _ => false

/-- A USD/JPY spread-bet epic (see `extract_static_mappings.py` line 43). -/
def usdjpy_epic : PyStr := "CS.D.USDJPY.TODAY.IP".toList

/-- A EUR/USD spread-bet epic (see `extract_static_mappings.py` line 41). -/
def eurusd_epic : PyStr := "CS.D.EURUSD.TODAY.IP".toList

/-- The gold spread-bet epic (see `extract_static_mappings.py` line 59). -/
def gold_epic : PyStr := "CS.D.USCGC.TODAY.IP".toList

/-- A snapshot with a bid of 15000 and a net change of 50, used for the
change-field analysis of the IG record construction. -/
def change_demo_snapshot : Snapshot :=
  { bid := some 15000, offer := none, percentageChange := some (5 / 2),
    netChange := some 50 }

/-- The record `ig_build_price` constructs from `change_demo_snapshot` for
an equity-coded `.DAILY.IP` epic: the price is divided by 100, the
absolute change is not. -/
def change_demo_record : PriceData :=
  { symbol := "AAPL".toList, asset_type := .equity, price := 150,
    change_percent := 5 / 2, change_absolute := 50, volume := none,
    market_cap := none, source := "ig_index".toList }

/-- A single tradeable IG search result for the discovery analysis. -/
def pltr_market : Market :=
  { epic := "UC.D.PLTR.DAILY.IP".toList,
    instrumentName := "Palantir Technologies Inc".toList,
    marketStatus := "TRADEABLE".toList,
    streamingPricesAvailable := true }

/-- An IG environment where the broker consistently returns the single
tradeable candidate `pltr_market` and every directory upsert FAILS. -/
def discovery_fail_env : IGEnv :=
  { authenticated := true
    dbLookup := fun _ => none
    search := fun t => if t = ("PLTR".toList) then [pltr_market] else []
    metadata := fun _ => some { clean_name := some ("Palantir Technologies".toList),
                                instr_type := "SHARES".toList }
    saveOk := fun _ _ => false
    fetchMarket := fun _ => none }

/-- The same IG environment with every directory upsert succeeding. -/
def discovery_ok_env : IGEnv :=
  { discovery_fail_env with saveOk := fun _ _ => true }

/-- The discovery result produced for PLTR in both environments above. -/
def pltr_discovery : DiscoveredSymbol :=
  { symbol := "PLTR".toList, epic := "UC.D.PLTR.DAILY.IP".toList,
    display_name := "Palantir Technologies".toList,
    asset_type := "stock".toList }

/-- A price record with the given symbol, produced by the demo state below. -/
def bulk_demo_record (s : PyStr) : PriceData :=
  { symbol := s, asset_type := detect_asset_type s, price := 1,
    change_percent := 0, change_absolute := 0, volume := none,
    market_cap := none, source := "binance".toList }

/-- An aggregator state where only Binance is ready and every provider call
returns a valid record carrying the queried symbol. -/
def bulk_demo_state : AggState :=
  { ready := fun p => decide (p = Provider.binance)
    fetch := fun _ s => .returned (some (bulk_demo_record s))
    igAuthenticated := false }

/-- A cached record for AAPL, standing for a stale (TTL-expired) entry. -/
def stale_cache_record : PriceData :=
  { symbol := "AAPL".toList, asset_type := .equity, price := 100,
    change_percent := 0, change_absolute := 0, volume := none,
    market_cap := none, source := "cache".toList }

/-- An aggregator state where every provider is ready but every call
raises. -/
def failing_agg_state : AggState :=
  { ready := fun _ => true
    fetch := fun _ _ => .raised
    igAuthenticated := false }

/-- A connected cache holding `stale_cache_record` under the key AAPL. -/
def stale_cache_state : CacheState :=
  { redisConnected := true
    store := fun k => if k = ("AAPL".toList) then some stale_cache_record
                      else none }

/-- A record with price 0, as returned by the first provider in the
zero-price-guard demonstration. -/
def zero_price_record : PriceData :=
  { symbol := "WAI".toList, asset_type := .crypto, price := 0,
    change_percent := 0, change_absolute := 0, volume := none,
    market_cap := none, source := "binance".toList }

/-- A valid record with price 100, as returned by the second provider. -/
def good_price_record : PriceData :=
  { symbol := "WAI".toList, asset_type := .crypto, price := 100,
    change_percent := 0, change_absolute := 0, volume := none,
    market_cap := none, source := "mexc".toList }

/-- An aggregator state where Binance and MEXC are ready, Binance returns
the zero-price record and MEXC the valid one. -/
def zero_guard_state : AggState :=
  { ready := fun p => decide (p = Provider.binance) || decide (p = Provider.mexc)
    fetch := fun p _ =>
      match p with
      | .binance => .returned (some zero_price_record)
      | .mexc => .returned (some good_price_record)
      | _ => .returned none
    igAuthenticated := false }

/-- A division-free snapshot for a forex epic: bid 15000, net change 50. -/
def fx_demo_snapshot : Snapshot :=
  { bid := some 15000, offer := none, percentageChange := some 3,
    netChange := some 50 }

/-- The record `ig_build_price` constructs from `fx_demo_snapshot` for the
EUR/USD spread-bet epic (factor 1: the price passes through). -/
def fx_demo_record : PriceData :=
  { symbol := "EURUSD".toList, asset_type := .equity, price := 15000,
    change_percent := 3, change_absolute := 50, volume := none,
    market_cap := none, source := "ig_index".toList }

/-- Any record the provider loop returns has a strictly positive price. -/
theorem try_providers_pos (st : AggState) (symbol : PyStr) :
    ∀ (L : List Provider) (r : PriceData),
      try_providers st symbol L = some r → 0 < r.price := by
  intro L
  induction L with
  | nil => intro r h; exact absurd h (by simp [try_providers])
  | cons p rest ih =>
    intro r h
    rw [try_providers] at h
    by_cases hready : st.ready p
    · rw [hready] at h
      simp only [Bool.not_true, Bool.false_eq_true, if_false] at h
      cases hfetch : st.fetch p symbol with
      | timeout => rw [hfetch] at h; exact ih r h
      | raised => rw [hfetch] at h; exact ih r h
      | returned ro =>
        cases ro with
        | none => rw [hfetch] at h; exact ih r h
        | some r0 =>
          rw [hfetch] at h
          have h' : (if 0 < r0.price then some r0
                     else try_providers st symbol rest) = some r := h
          by_cases hpos : 0 < r0.price
          · rw [if_pos hpos] at h'
            cases h'
            exact hpos
          · rw [if_neg hpos] at h'
            exact ih r h'
    · rw [eq_false_of_ne_true hready] at h
      simp only [Bool.not_false, if_true] at h
      exact ih r h

/-- When no provider call yields a usable record, the provider loop
returns none on every provider list. -/
theorem try_providers_none (st : AggState) (symbol : PyStr)
    (h : ∀ p, provider_usable_result st p symbol = none) :
    ∀ L : List Provider, try_providers st symbol L = none := by
  intro L
  induction L with
  | nil => rfl
  | cons p rest ih =>
    rw [try_providers]
    by_cases hready : st.ready p
    · rw [hready]
      simp only [Bool.not_true, Bool.false_eq_true, if_false]
      have hp := h p
      unfold provider_usable_result at hp
      cases hfetch : st.fetch p symbol with
      | timeout => exact ih
      | raised => exact ih
      | returned ro =>
        cases ro with
        | none => exact ih
        | some r0 =>
          rw [hfetch] at hp
          have hp' : (if 0 < r0.price then some r0 else none) =
              (none : Option PriceData) := hp
          show (if 0 < r0.price then some r0
                else try_providers st symbol rest) = none
          by_cases hpos : 0 < r0.price
          · rw [if_pos hpos] at hp'; exact absurd hp' (by simp)
          · rw [if_neg hpos]; exact ih
    · rw [eq_false_of_ne_true hready]
      simp only [Bool.not_false, if_true]
      exact ih

/-- The head of a readiness-filtered provider list is ready. -/
theorem head_filter_ready (st : AggState) (L : List Provider) (p : Provider)
    (rest : List Provider) (h : L.filter st.ready = p :: rest) :
    st.ready p = true := by
  have hmem : p ∈ L.filter st.ready := h ▸ List.mem_cons_self p rest
  exact (List.mem_filter.mp hmem).2

/-- Every provider the routing produces is ready. -/
theorem get_providers_head_ready (st : AggState) (a : AssetType)
    (p : Provider) (rest : List Provider)
    (h : get_providers_for_symbol st a = p :: rest) :
    st.ready p = true := by
  unfold get_providers_for_symbol at h
  by_cases he : ((provider_priority a).filter st.ready).isEmpty
  · simp only [he, if_true] at h
    exact head_filter_ready st price_fallback_list p rest h
  · simp only [he, Bool.false_eq_true, if_false] at h
    exact head_filter_ready st (provider_priority a) p rest h

/-- When the IG provider is not ready, no symbol is routed to it first. -/
theorem ig_routed_false_of_not_ready (st : AggState)
    (h : st.ready Provider.ig_index = false) (s : PyStr) :
    ig_routed st s = false := by
  unfold ig_routed
  cases hp : get_providers_for_symbol st (detect_asset_type s) with
  | nil => rfl
  | cons p rest =>
    have hr := get_providers_head_ready st _ p rest hp
    by_cases hpe : p = Provider.ig_index
    · subst hpe; rw [h] at hr; exact absurd hr (by simp)
    · simp [hpe]

/-- Pointwise-equal functions give equal filterMaps. -/
theorem list_filterMap_congr {α β : Type} (f g : α → Option β) :
    ∀ L : List α, (∀ a ∈ L, f a = g a) → L.filterMap f = L.filterMap g := by
  intro L
  induction L with
  | nil => intro _; rfl
  | cons a t ih =>
    intro h
    rw [List.filterMap_cons, List.filterMap_cons,
        h a (List.mem_cons_self a t), ih (fun b hb => h b (List.mem_cons_of_mem a hb))]

/-- Pointwise-equal predicates give equal filters. -/
theorem list_filter_congr_on {α : Type} (p q : α → Bool) :
    ∀ L : List α, (∀ a ∈ L, p a = q a) → L.filter p = L.filter q := by
  intro L
  induction L with
  | nil => intro _; rfl
  | cons a t ih =>
    intro h
    rw [List.filter_cons, List.filter_cons,
        h a (List.mem_cons_self a t), ih (fun b hb => h b (List.mem_cons_of_mem a hb))]

/-- If a symbol does not occur in the queried list, the price-map filter
for it over the fetched records is empty. -/
theorem filter_symbol_filterMap_eq_nil (f : PyStr → Option PriceData)
    (hf : ∀ s r, f s = some r → r.symbol = s) (s : PyStr) :
    ∀ L : List PyStr, s ∉ L →
      (L.filterMap f).filter (fun p => p.symbol = s) = [] := by
  intro L
  induction L with
  | nil => intro _; rfl
  | cons a t ih =>
    intro hs
    have ha : a ≠ s := fun h => hs (h ▸ List.mem_cons_self a t)
    have ht : s ∉ t := fun h => hs (List.mem_cons_of_mem a h)
    cases hfa : f a with
    | none => rw [List.filterMap_cons_none hfa]; exact ih ht
    | some r =>
      rw [List.filterMap_cons_some hfa, List.filter_cons]
      have : (decide (r.symbol = s)) = false := by
        rw [hf a r hfa]
        exact decide_eq_false ha
      rw [this]
      simp only [Bool.false_eq_true, if_false]
      exact ih ht

/-- On a duplicate-free symbol list whose fetches carry the queried
symbol, the price map recovers exactly the fetch result. -/
theorem last_with_symbol_filterMap (f : PyStr → Option PriceData)
    (hf : ∀ s r, f s = some r → r.symbol = s) :
    ∀ L : List PyStr, L.Nodup → ∀ s ∈ L,
      last_with_symbol (L.filterMap f) s = f s := by
  intro L
  induction L with
  | nil => intro _ s hs; exact absurd hs (List.not_mem_nil s)
  | cons a t ih =>
    intro hnd s hs
    have hnd' := List.nodup_cons.mp hnd
    unfold last_with_symbol
    rcases List.mem_cons.mp hs with hsa | hst
    · subst hsa
      cases hfa : f s with
      | none =>
        rw [List.filterMap_cons_none hfa,
            filter_symbol_filterMap_eq_nil f hf s t hnd'.1]
        rfl
      | some r =>
        rw [List.filterMap_cons_some hfa, List.filter_cons]
        have hd : (decide (r.symbol = s)) = true := by
          rw [hf s r hfa]; exact decide_eq_true rfl
        rw [hd]
        simp only [if_true]
        rw [filter_symbol_filterMap_eq_nil f hf s t hnd'.1]
        rfl
    · have hne : a ≠ s := fun h => hnd'.1 (h ▸ hst)
      cases hfa : f a with
      | none =>
        rw [List.filterMap_cons_none hfa]
        have := ih hnd'.2 s hst
        unfold last_with_symbol at this
        exact this
      | some r =>
        rw [List.filterMap_cons_some hfa, List.filter_cons]
        have hd : (decide (r.symbol = s)) = false := by
          rw [hf a r hfa]; exact decide_eq_false hne
        rw [hd]
        simp only [Bool.false_eq_true, if_false]
        have := ih hnd'.2 s hst
        unfold last_with_symbol at this
        exact this

/-- The sorted deduplicated symbol list is duplicate-free. -/
theorem unique_symbols_nodup (symbols : List PyStr) :
    (unique_symbols_of symbols).Nodup := by
  unfold unique_symbols_of
  exact ((List.perm_insertionSort _ _).nodup_iff).mpr (List.nodup_dedup symbols)

/-- Compiling the bulk response of symbol-faithful fetches over a
duplicate-free symbol list yields the fetches in list order, with the
unfetched symbols failed. -/
theorem compile_bulk_filterMap (f : PyStr → Option PriceData)
    (hf : ∀ s r, f s = some r → r.symbol = s)
    (U : List PyStr) (hU : U.Nodup) :
    compile_bulk U (U.filterMap f) =
      { data := U.filterMap f
        failed_symbols := U.filter (fun s => (f s).isNone) } := by
  unfold compile_bulk
  have hpt : ∀ s ∈ U, last_with_symbol (U.filterMap f) s = f s :=
    last_with_symbol_filterMap f hf U hU
  congr 1
  · exact list_filterMap_congr _ f U hpt
  · exact list_filter_congr_on _ _ U (fun s hs => by rw [hpt s hs])

/-- C1 counterexample: a USD/JPY spread-bet raw price of 15000 is returned
unchanged by `_normalize_price` (the claimed factor-100 rule does not
exist in the code), so the claimed result 150 is not produced. -/
theorem C1_usdjpy_factor_cex :
    normalize_price 15000 usdjpy_epic = 15000 ∧ (15000 : ℚ) ≠ 150 := by
  constructor
  · rfl
  · norm_num

/-- C1 (amended): `_normalize_price` divides by 100 exactly for the
equity-coded `.DAILY.IP` instrument codes; every other code — including
the USD/JPY, EUR/USD and gold spread-bet codes — passes through with
factor 1. -/
theorem C1_normalize_factor_table (price : ℚ) :
    normalize_price price usdjpy_epic = price ∧
    normalize_price price eurusd_epic = price ∧
    normalize_price price gold_epic = price ∧
    (∀ epic : PyStr, is_equity_daily_epic epic = true →
        normalize_price price epic = price / 100) ∧
    (∀ epic : PyStr, is_equity_daily_epic epic = false →
        normalize_price price epic = price) := by
  refine ⟨?_, ?_, ?_, ?_, ?_⟩
  · simp [normalize_price, show is_equity_daily_epic usdjpy_epic = false from by decide]
  · simp [normalize_price, show is_equity_daily_epic eurusd_epic = false from by decide]
  · simp [normalize_price, show is_equity_daily_epic gold_epic = false from by decide]
  · intro epic h; simp [normalize_price, h]
  · intro epic h; simp [normalize_price, h]

/-- C1 witness: pass-through on the USD/JPY code, division by 100 on an
equity-coded `.DAILY.IP` epic. -/
theorem C1_normalize_factor_table_witness :
    normalize_price 15000 usdjpy_epic = 15000 ∧
    normalize_price 12345 ("UA.D.AAPL.DAILY.IP".toList) = 12345 / 100 := by
  constructor
  · exact (C1_normalize_factor_table 15000).1
  · exact (C1_normalize_factor_table 12345).2.2.2.1 _ (by decide)

/-- C2 counterexample: for an equity-coded `.DAILY.IP` epic with raw bid
15000 and `netChange` 50, the constructed record has price 150 (divided by
100) but `change_absolute` 50, not 50/100 as the claim requires. -/
theorem C2_change_not_rescaled_cex :
    ig_build_price ("AAPL".toList) ("UA.D.AAPL.DAILY.IP".toList)
        ("stock".toList) change_demo_snapshot = some change_demo_record ∧
    change_demo_record.price = 150 ∧
    change_demo_record.change_absolute = 50 ∧ (50 : ℚ) ≠ 50 / 100 := by
  refine ⟨?_, rfl, rfl, by norm_num⟩
  simp only [ig_build_price]
  rw [show raw_price_of change_demo_snapshot = 15000 from rfl]
  rw [if_neg (by norm_num : ¬(15000 : ℚ) = 0)]
  have hp : normalize_price (15000 : ℚ) ("UA.D.AAPL.DAILY.IP".toList) = 150 := by
    unfold normalize_price
    rw [if_pos (by decide)]
    norm_num
  rw [hp]
  rfl

/-- C2 (amended): in every record the IG adapter's record construction
produces, the price is the normalized raw price, while `change_absolute`
and `change_percent` are the raw snapshot fields, never rescaled. -/
theorem C2_change_fields_raw (ticker epic ats : PyStr) (snap : Snapshot)
    (r : PriceData) (h : ig_build_price ticker epic ats snap = some r) :
    r.price = normalize_price (raw_price_of snap) epic ∧
    r.change_absolute = snap.netChange.getD 0 ∧
    r.change_percent = snap.percentageChange.getD 0 := by
  by_cases h0 : raw_price_of snap = 0
  · have : ig_build_price ticker epic ats snap = none := by
      unfold ig_build_price
      rw [if_pos h0]
    rw [this] at h
    exact absurd h (by simp)
  · have h' : (some { symbol := ticker
                      asset_type := asset_type_of_str ats
                      price := normalize_price (raw_price_of snap) epic
                      change_percent := snap.percentageChange.getD 0
                      change_absolute := snap.netChange.getD 0
                      volume := none
                      market_cap := none
                      source := "ig_index".toList } : Option PriceData) =
        some r := by
      rw [← h]
      unfold ig_build_price
      rw [if_neg h0]
    cases Option.some.inj h'
    exact ⟨rfl, rfl, rfl⟩

/-- C2 witness: the theorem applied to a concrete EUR/USD record. -/
theorem C2_change_fields_raw_witness :
    fx_demo_record.price =
      normalize_price (raw_price_of fx_demo_snapshot) eurusd_epic ∧
    fx_demo_record.change_absolute = fx_demo_snapshot.netChange.getD 0 ∧
    fx_demo_record.change_percent = fx_demo_snapshot.percentageChange.getD 0 :=
  C2_change_fields_raw ("EURUSD".toList) eurusd_epic ("stock".toList)
    fx_demo_snapshot fx_demo_record (by decide)

/-- C3: `IGIndexProvider.get_price` returns `None` for every ticker in
every environment (the unbound name `ensure_session` raises a `NameError`
caught by the blanket handler), and the aggregator's keyword call
`get_price(symbol, ensure_session=...)` does not bind against the
`(self, ticker)` signature, so the IG adapter never produces a record. -/
theorem C3_ig_get_price_always_none :
    (∀ (env : IGEnv) (ticker : PyStr), ig_get_price env ticker = none) ∧
    pyKwargsOk ig_get_price_params [ensure_session_name] = false := by
  constructor
  · intro env ticker
    unfold ig_get_price
    rw [show igNameBound ensure_session_name = false from by decide]
    rfl
  · decide

/-- C4 (code evaluated at the failing input): with the broker returning a
single tradeable PLTR candidate, discovery returns the resolved mapping
even when every directory upsert fails — because line 207 of
`ig_index.py` tests the truthiness of the un-awaited coroutine instead of
the save result — and the result is identical when the upsert would
succeed. -/
theorem C4_discovery_ignores_save :
    discover_and_enhance_symbol discovery_fail_env ("PLTR".toList) =
      some pltr_discovery ∧
    discover_and_enhance_symbol discovery_ok_env ("PLTR".toList) =
      some pltr_discovery := by
  constructor
  · decide
  · decide

/-- C6 counterexample: constructing the aggregator with the FRED API key
absent raises `ValueError` instead of yielding a working aggregator. -/
theorem C6_missing_fred_key_cex :
    data_aggregator_mk none = Except.error PyErr.valueError := rfl

/-- C6 (amended): a falsy FRED API key makes `FredService.__init__` raise
`ValueError`, which propagates out of `DataAggregator.__init__`, so no
aggregator is constructed at all; only a non-empty key lets construction
succeed.  Moreover `Settings` declares no `fred_api_key` field at all. -/
theorem C6_fred_key_fatal (k : Option PyStr) :
    (credential_falsy k = true →
        data_aggregator_mk k = Except.error PyErr.valueError) ∧
    (credential_falsy k = false →
        except_is_ok (data_aggregator_mk k) = true) ∧
    decide (("fred_api_key".toList) ∈ settings_field_names) = false := by
  refine ⟨?_, ?_, by decide⟩
  · intro h
    cases k with
    | none => rfl
    | some s =>
      have hs : s.isEmpty = true := h
      simp only [data_aggregator_mk, fred_service_mk, hs, if_true]
  · intro h
    cases k with
    | none => exact absurd h (by simp [credential_falsy])
    | some s =>
      have hs : s.isEmpty = false := h
      simp only [data_aggregator_mk, fred_service_mk, hs, Bool.false_eq_true,
                 if_false, except_is_ok]

/-- C6 witness: the theorem at a missing key and at a present key. -/
theorem C6_fred_key_fatal_witness :
    data_aggregator_mk none = Except.error PyErr.valueError ∧
    except_is_ok (data_aggregator_mk (some ("KEY".toList))) = true := by
  constructor
  · exact (C6_fred_key_fatal none).1 rfl
  · exact (C6_fred_key_fatal (some ("KEY".toList))).2.1 rfl

/-- C7 counterexample: with every provider call failing, `get_price`
returns none even though the connected cache still holds an (arbitrarily
stale) record for the symbol — no stale-cache fallback exists. -/
theorem C7_no_stale_cache_cex :
    cache_get stale_cache_state ("AAPL".toList) = some stale_cache_record ∧
    sys_get_price failing_agg_state stale_cache_state ("AAPL".toList) =
      none := by
  constructor
  · rfl
  · rfl

/-- C7 (amended): when no provider yields a usable record for a symbol,
the system price lookup returns none whatever the cache contains: neither
the aggregator nor the price route ever consults the cache. -/
theorem C7_all_fail_returns_none (st : AggState) (symbol : PyStr)
    (h : ∀ p, provider_usable_result st p symbol = none) :
    ∀ cache : CacheState, sys_get_price st cache symbol = none := by
  intro cache
  unfold sys_get_price agg_get_price
  exact try_providers_none st symbol h _

/-- C7 witness: the theorem at the all-failing state and the stale cache. -/
theorem C7_all_fail_returns_none_witness :
    sys_get_price failing_agg_state stale_cache_state ("MSFT".toList) =
      none :=
  C7_all_fail_returns_none failing_agg_state ("MSFT".toList)
    (fun p => by cases p <;> rfl) stale_cache_state

/-- C8: every record `get_price` returns has price > 0; a provider
response with price ≤ 0 makes the loop move on to the next provider
exactly as if no data had been returned; and the IG adapter itself
returns no record when the raw snapshot price is 0. -/
theorem C8_positive_price_guard :
    (∀ (st : AggState) (symbol : PyStr) (r : PriceData),
        agg_get_price st symbol = some r → 0 < r.price) ∧
    (∀ (st : AggState) (symbol : PyStr) (p : Provider)
        (rest : List Provider) (r : PriceData),
        st.fetch p symbol = FetchOutcome.returned (some r) → r.price ≤ 0 →
        try_providers st symbol (p :: rest) = try_providers st symbol rest) ∧
    (∀ (ticker epic ats : PyStr) (snap : Snapshot), raw_price_of snap = 0 →
        ig_build_price ticker epic ats snap = none) := by
  refine ⟨?_, ?_, ?_⟩
  · intro st symbol r h
    exact try_providers_pos st symbol _ r h
  · intro st symbol p rest r hfetch hle
    rw [try_providers]
    by_cases hready : st.ready p
    · rw [hready]
      simp only [Bool.not_true, Bool.false_eq_true, if_false]
      rw [hfetch]
      show (if 0 < r.price then some r
            else try_providers st symbol rest) = try_providers st symbol rest
      rw [if_neg (not_lt.mpr hle)]
    · rw [eq_false_of_ne_true hready]
      simp only [Bool.not_false, if_true]
  · intro ticker epic ats snap h0
    unfold ig_build_price
    rw [if_pos h0]

/-- C8 witness: Binance returns a price-0 record for WAI, MEXC a valid
one; the loop skips the zero record, the returned price is positive, and
a zero-bid snapshot yields no IG record. -/
theorem C8_positive_price_guard_witness :
    0 < good_price_record.price ∧
    try_providers zero_guard_state ("WAI".toList)
        [Provider.binance, Provider.mexc] =
      try_providers zero_guard_state ("WAI".toList) [Provider.mexc] ∧
    ig_build_price ("GOLD".toList) (gold_epic) ("commodity".toList)
      { bid := some 0, offer := none, percentageChange := none,
        netChange := none } = none := by
  refine ⟨?_, ?_, ?_⟩
  · exact C8_positive_price_guard.1 zero_guard_state ("WAI".toList)
      good_price_record (by decide)
  · exact C8_positive_price_guard.2.1 zero_guard_state ("WAI".toList)
      Provider.binance [Provider.mexc] zero_price_record rfl (by decide)
  · exact C8_positive_price_guard.2.2 ("GOLD".toList) gold_epic
      ("commodity".toList) _ rfl

/-- C9: the classifier is a total Lean function (hence deterministic and
never-throwing); a symbol containing a supported crypto ticker maps to
CRYPTO; a six-character symbol containing a known currency code that does
not match the earlier crypto rule maps to FOREX; and a symbol matching no
rule maps to EQUITY. -/
theorem C9_classifier_rules (s : PyStr) :
    (crypto_symbols.any (fun c => pyIn c (symbol_upper_of s)) = true →
        detect_asset_type s = AssetType.crypto) ∧
    ((symbol_upper_of s).length = 6 →
        forex_pairs.any (fun c => pyIn c (symbol_upper_of s)) = true →
        crypto_symbols.any (fun c => pyIn c (symbol_upper_of s)) = false →
        detect_asset_type s = AssetType.forex) ∧
    (crypto_symbols.any (fun c => pyIn c (symbol_upper_of s)) = false →
        (decide (6 ≤ (symbol_upper_of s).length) &&
          forex_pairs.any (fun c => pyIn c (symbol_upper_of s))) = false →
        index_symbols.any (fun c => pyIn c (symbol_upper_of s)) = false →
        commodity_symbols.any (fun c => pyIn c (symbol_upper_of s)) = false →
        detect_asset_type s = AssetType.equity) := by
  refine ⟨?_, ?_, ?_⟩
  · intro h
    simp only [detect_asset_type, h, if_true]
  · intro h6 hf hc
    simp only [detect_asset_type, hc, Bool.false_eq_true, if_false, h6, hf,
               Bool.and_true]
    norm_num
  · intro h1 h2 h3 h4
    simp only [detect_asset_type, h1, h2, h3, h4, Bool.false_eq_true,
               if_false]

/-- C9 witness: a crypto-containing symbol, a six-letter currency pair,
and an unmatched symbol. -/
theorem C9_classifier_rules_witness :
    detect_asset_type ("BTC-USD".toList) = AssetType.crypto ∧
    detect_asset_type ("EURGBP".toList) = AssetType.forex ∧
    detect_asset_type ("ZZ".toList) = AssetType.equity := by
  refine ⟨?_, ?_, ?_⟩
  · exact (C9_classifier_rules ("BTC-USD".toList)).1 (by decide)
  · exact (C9_classifier_rules ("EURGBP".toList)).2.1 (by decide) (by decide)
      (by decide)
  · exact (C9_classifier_rules ("ZZ".toList)).2.2 (by decide) (by decide)
      (by decide) (by decide)

/-- C10 counterexample: `fred` is indeed not ready after initialization,
but one aggregator `health_check` marks it ready, because `FredService`
has no `health_check` method and such providers are assumed healthy
(`services/aggregator.py` lines 204-206, 236-238) — so "never marked
ready" is false. -/
theorem C10_fred_marked_ready_cex :
    init_fred_ready { observations := fun _ => none } = false ∧
    health_update_ready (fun _ => false)
        (provider_health_result (fun _ => Except.error ())) Provider.fred =
      true := by
  constructor
  · rfl
  · rfl

/-- C10 (amended): `get_series_data` always returns the truthy coroutine
object of the un-awaited cache lookup — never a dict and never reaching
the live fetch — so the aggregator's macro functional test always
evaluates false and initialization never marks `fred` ready (a later
health check can still mark it ready, see the counterexample). -/
theorem C10_fred_never_dict :
    (∀ (env : FredEnv) (sid : PyStr),
        fred_get_series_data env sid = PyVal.coroutine) ∧
    (∀ (env : FredEnv) (sid : PyStr) (d : List (PyStr × ℚ)),
        fred_get_series_data env sid ≠ PyVal.mdict d) ∧
    (∀ env : FredEnv, test_macro_provider env = false) ∧
    (∀ env : FredEnv, init_fred_ready env = false) := by
  have hcor : ∀ (env : FredEnv) (sid : PyStr),
      fred_get_series_data env sid = PyVal.coroutine := by
    intro env sid
    rfl
  have htest : ∀ env : FredEnv, test_macro_provider env = false := by
    intro env
    unfold test_macro_provider
    rw [hcor]
    rfl
  refine ⟨hcor, ?_, htest, ?_⟩
  · intro env sid d h
    rw [hcor] at h
    exact PyVal.noConfusion h
  · intro env
    unfold init_fred_ready
    exact htest env

/-- In the demo state, every symbol resolves to its own record via the
ready Binance provider. -/
theorem agg_get_price_bulk_demo (s : PyStr) :
    agg_get_price bulk_demo_state s = some (bulk_demo_record s) := by
  unfold agg_get_price
  cases h : detect_asset_type s <;> rfl

/-- Records fetched in the demo state carry the queried symbol. -/
theorem bulk_demo_symbol_faithful :
    ∀ (s : PyStr) (r : PriceData),
      agg_get_price bulk_demo_state s = some r → r.symbol = s := by
  intro s r h
  rw [agg_get_price_bulk_demo s] at h
  cases Option.some.inj h
  rfl

/-- C5 counterexample: for the input `["BBB", "AAA"]` with both symbols
succeeding, the bulk data comes back ordered `["AAA", "BBB"]` — the
sorted deduplicated order, not the input order. -/
theorem C5_bulk_input_order_cex :
    (agg_get_bulk_prices bulk_demo_state ["BBB".toList, "AAA".toList]).map
        (fun r => r.data.map (fun p => p.symbol)) =
      Except.ok [("AAA".toList : PyStr), "BBB".toList] ∧
    ([("AAA".toList : PyStr), "BBB".toList] ≠
      [("BBB".toList : PyStr), "AAA".toList]) := by
  constructor
  · rfl
  · decide

/-- C5 (amended): when no symbol routes primarily to the IG provider and
fetched records carry the queried symbol, `get_bulk_prices` returns the
per-symbol results positionally aligned to the SORTED DEDUPLICATED symbol
list (not the input order), with the unfetched symbols listed as failed,
independently of any completion order (the embedding is deterministic). -/
theorem C5_bulk_sorted_order (st : AggState) (symbols : List PyStr)
    (h_ig : st.ready Provider.ig_index = false)
    (h_sym : ∀ (s : PyStr) (r : PriceData),
        agg_get_price st s = some r → r.symbol = s) :
    agg_get_bulk_prices st symbols =
      Except.ok
        { data := (unique_symbols_of symbols).filterMap (agg_get_price st)
          failed_symbols := (unique_symbols_of symbols).filter
            (fun s => (agg_get_price st s).isNone) } := by
  have hig0 : ∀ s, ig_routed st s = false := ig_routed_false_of_not_ready st h_ig
  have higs : (unique_symbols_of symbols).filter (ig_routed st) = [] := by
    rw [list_filter_congr_on (ig_routed st) (fun _ => false) _
        (fun a _ => hig0 a)]
    exact List.filter_false _
  have hoth : (unique_symbols_of symbols).filter (fun s => !ig_routed st s) =
      unique_symbols_of symbols := by
    rw [list_filter_congr_on _ (fun _ => true) _
        (fun a _ => by rw [hig0 a]; rfl)]
    exact List.filter_true _
  simp only [agg_get_bulk_prices, higs, hoth, List.isEmpty_nil, if_true]
  rw [compile_bulk_filterMap (agg_get_price st) h_sym _
      (unique_symbols_nodup symbols)]

/-- C5 witness: the theorem at the demo state and the two-symbol input. -/
theorem C5_bulk_sorted_order_witness :
    agg_get_bulk_prices bulk_demo_state ["BBB".toList, "AAA".toList] =
      Except.ok
        { data := (unique_symbols_of ["BBB".toList, "AAA".toList]).filterMap
            (agg_get_price bulk_demo_state)
          failed_symbols :=
            (unique_symbols_of ["BBB".toList, "AAA".toList]).filter
              (fun s => (agg_get_price bulk_demo_state s).isNone) } :=
  C5_bulk_sorted_order bulk_demo_state ["BBB".toList, "AAA".toList] rfl
    bulk_demo_symbol_faithful

/-- C10 witness: the theorem instantiated at a concrete environment. -/
theorem C10_fred_never_dict_witness :
    fred_get_series_data { observations := fun _ => none } ("GDP".toList) =
      PyVal.coroutine ∧
    test_macro_provider { observations := fun _ => none } = false ∧
    init_fred_ready { observations := fun _ => none } = false :=
  ⟨C10_fred_never_dict.1 { observations := fun _ => none } ("GDP".toList),
   C10_fred_never_dict.2.2.1 { observations := fun _ => none },
   C10_fred_never_dict.2.2.2 { observations := fun _ => none }⟩
